import Mathlib

/-!
Shallow embedding of `src/wsd/LOOLWebSocket.hpp` (class `LOOLWebSocket`,
a thread-safe wrapper over `Poco::Net::WebSocket`).

The underlying transport is modelled as the data that drives one call:

* for `receiveFrame`, a list of `RecvStep`s — one per loop iteration in which
  `poll` reports readable.  Each step carries the values the underlying
  `Poco::Net::WebSocket::receiveFrame` produces (byte count `n`, `flags`, the
  payload bytes placed in the caller's buffer) together with the byte count
  the transport would report for the PONG echo write, should one be issued
  that iteration.  When the list is exhausted, `poll` returns false (the
  bounded wait elapses) and the loop exits.
* for `sendFrame`, a `SendEnv` carrying the byte counts the transport reports
  for the preamble write and for the payload write.

Each operation returns its C++ return value together with a trace of
observable events (poll calls, lock acquisitions/releases, frame reads and
writes), so that locking discipline and the exact sequence of transport
writes can be stated and proved.

`LARGE_MESSAGE_SIZE` and `POLL_TIMEOUT_MS` come from `Common.hpp`, which is
not part of the given sources; `sendFrame` is therefore parameterised by the
threshold, and the poll timeout plays no role in the abstraction (a poll is
just a boolean outcome).
-/

namespace LOOLWebSocket

/-- Constant `Poco::Net::WebSocket::FRAME_OP_BITMASK` (low four opcode bits). -/
def FRAME_OP_BITMASK : Nat := 0x0f

/-- Constant `Poco::Net::WebSocket::FRAME_OP_PING`. -/
def FRAME_OP_PING : Nat := 0x09

/-- Constant `Poco::Net::WebSocket::FRAME_OP_PONG`. -/
def FRAME_OP_PONG : Nat := 0x0a

/-- Constant `Poco::Net::WebSocket::FRAME_FLAG_FIN`. -/
def FRAME_FLAG_FIN : Nat := 0x80

/-- Constant `Poco::Net::WebSocket::FRAME_OP_TEXT`. -/
def FRAME_OP_TEXT : Nat := 0x01

/-- Constant `Poco::Net::WebSocket::FRAME_TEXT = FRAME_FLAG_FIN | FRAME_OP_TEXT`,
the default `flags` argument of `sendFrame`. -/
def FRAME_TEXT : Nat := FRAME_FLAG_FIN ||| FRAME_OP_TEXT

/-- Test `(flags & WebSocket::FRAME_OP_BITMASK) == WebSocket::FRAME_OP_PING`. -/
def isPing (flags : Nat) : Bool := (flags &&& FRAME_OP_BITMASK) == FRAME_OP_PING

/-- Test `(flags & WebSocket::FRAME_OP_BITMASK) == WebSocket::FRAME_OP_PONG`. -/
def isPong (flags : Nat) : Bool := (flags &&& FRAME_OP_BITMASK) == FRAME_OP_PONG

/-- One loop iteration of `receiveFrame` in which `poll` reported readable:
the outcome of the underlying `Poco::Net::WebSocket::receiveFrame`
(`n`, `flags`, the bytes placed in the caller's buffer), and the byte count
`echoResult` the transport reports for the PONG echo write, should the
iteration issue one. -/
structure RecvStep where
  n : Int
  flags : Nat
  payload : List Nat
  echoResult : Int
deriving DecidableEq

/-- Observable events of one `receiveFrame` / `sendFrame` call. -/
inductive Ev where
  | poll (ready : Bool)
  | lockRead
  | unlockRead
  | lockWrite
  | unlockWrite
  | readFrame (n : Int) (flags : Nat)
  | writeFrame (payload : List Nat) (len : Int) (flags : Nat) (result : Int)
deriving DecidableEq

/-- Result of a `receiveFrame` call: the C++ return value, the data frame
delivered to the caller's buffer on a successful return (if any), and the
event trace. -/
structure RecvResult where
  ret : Int
  delivered : Option RecvStep
  trace : List Ev
deriving DecidableEq

/-- Embedding of `LOOLWebSocket::receiveFrame(char*, int, int&)`:

    while (poll(waitTime, Poco::Net::Socket::SELECT_READ))
    {
        std::unique_lock<std::mutex> lockRead(_mutexRead);
        const int n = Poco::Net::WebSocket::receiveFrame(buffer, length, flags);
        lockRead.unlock();
        if ((flags & FRAME_OP_BITMASK) == FRAME_OP_PING)
        {
            std::unique_lock<std::mutex> lock(_mutexWrite);
            if (Poco::Net::WebSocket::sendFrame(buffer, n,
                  FRAME_FLAG_FIN | FRAME_OP_PONG) != n)
                return -1;
        }
        else if ((flags & FRAME_OP_BITMASK) == FRAME_OP_PONG) { }
        else
            return n;
    }
    return -1;

The steps list holds the iterations for which `poll` reports readable; when
it is exhausted the next `poll` returns false and the function returns -1. -/
def receiveFrame : List RecvStep → RecvResult
  | [] => ⟨-1, none, [Ev.poll false]⟩
  | s :: rest =>
    let pre := [Ev.poll true, Ev.lockRead, Ev.readFrame s.n s.flags, Ev.unlockRead]
    if isPing s.flags then
      let wev := Ev.writeFrame s.payload s.n (FRAME_FLAG_FIN ||| FRAME_OP_PONG) s.echoResult
      if s.echoResult ≠ s.n then
        ⟨-1, none, pre ++ [Ev.lockWrite, wev, Ev.unlockWrite]⟩
      else
        let r := receiveFrame rest
        ⟨r.ret, r.delivered, pre ++ [Ev.lockWrite, wev, Ev.unlockWrite] ++ r.trace⟩
    else if isPong s.flags then
      let r := receiveFrame rest
      ⟨r.ret, r.delivered, pre ++ r.trace⟩
    else
      ⟨s.n, some s, pre⟩

/-- Byte counts the transport reports for the (up to two) writes a
`sendFrame` call issues. -/
structure SendEnv where
  preambleResult : Int
  payloadResult : Int
deriving DecidableEq

/-- Result of a `sendFrame` call: the C++ return value and the event trace. -/
structure SendResult where
  ret : Int
  trace : List Ev
deriving DecidableEq

/-- The preamble string `"nextmessage: size=" + std::to_string(length)`. -/
def nextmessage (length : Int) : String := "nextmessage: size=" ++ toString length

/-- The preamble text as the byte list handed to the transport. -/
def nextmessageBytes (length : Int) : List Nat :=
  (nextmessage length).data.map Char.toNat

/-- The preamble size `const int size = nextmessage.size();`. -/
def nextmessageSize (length : Int) : Int := Int.ofNat (nextmessage length).length

/-- Embedding of `LOOLWebSocket::sendFrame(const char*, int, int = FRAME_TEXT)`:

    std::unique_lock<std::mutex> lock(_mutexWrite);
    if (length >= LARGE_MESSAGE_SIZE)
    {
        const std::string nextmessage = "nextmessage: size=" + std::to_string(length);
        const int size = nextmessage.size();
        if (Poco::Net::WebSocket::sendFrame(nextmessage.data(), size) == size) { }
        else
            return -1;
    }
    const int result = Poco::Net::WebSocket::sendFrame(buffer, length, flags);
    lock.unlock();
    return result;

The inner preamble send uses Poco's default flags, `FRAME_TEXT`.
`LARGE_MESSAGE_SIZE` is defined in `Common.hpp` (not among the sources), so
it is a parameter here. -/
def sendFrame (LARGE_MESSAGE_SIZE : Int) (buffer : List Nat) (length : Int)
    (flags : Nat) (env : SendEnv) : SendResult :=
  if length ≥ LARGE_MESSAGE_SIZE then
    let wpre := Ev.writeFrame (nextmessageBytes length) (nextmessageSize length)
      FRAME_TEXT env.preambleResult
    if env.preambleResult = nextmessageSize length then
      ⟨env.payloadResult,
        [Ev.lockWrite, wpre, Ev.writeFrame buffer length flags env.payloadResult,
         Ev.unlockWrite]⟩
    else
      ⟨-1, [Ev.lockWrite, wpre, Ev.unlockWrite]⟩
  else
    ⟨env.payloadResult,
      [Ev.lockWrite, Ev.writeFrame buffer length flags env.payloadResult,
       Ev.unlockWrite]⟩

/-- A frame write as observed by the transport. -/
structure Write where
  payload : List Nat
  len : Int
  flags : Nat
  result : Int
deriving DecidableEq

/-- The frame writes of a trace, in order. -/
def writesOf : List Ev → List Write
  | [] => []
  | Ev.writeFrame p l f r :: rest => ⟨p, l, f, r⟩ :: writesOf rest
  | _ :: rest => writesOf rest

/-- The frame reads of a trace, in order (reported count and flags). -/
def readsOf : List Ev → List (Int × Nat)
  | [] => []
  | Ev.readFrame n f :: rest => (n, f) :: readsOf rest
  | _ :: rest => readsOf rest

/-- The steps a `receiveFrame` call actually consumes (reads) before it
returns: control frames are consumed and skipped, and consumption stops at
the first data frame or at the first PING whose echo write fails. -/
def consumedSteps : List RecvStep → List RecvStep
  | [] => []
  | s :: rest =>
    if isPing s.flags then
      if s.echoResult ≠ s.n then [s] else s :: consumedSteps rest
    else if isPong s.flags then s :: consumedSteps rest
    else [s]

/-- Lock-overlap checker: given which locks are currently held, `true` iff
the trace never acquires a lock while the other (or the same) lock is held,
and never releases a lock it does not hold. -/
def noOverlap : Bool → Bool → List Ev → Bool
  | _, _, [] => true
  | r, w, Ev.lockRead :: rest => !r && !w && noOverlap true w rest
  | r, w, Ev.unlockRead :: rest => r && noOverlap false w rest
  | r, w, Ev.lockWrite :: rest => !r && !w && noOverlap r true rest
  | r, w, Ev.unlockWrite :: rest => w && noOverlap r false rest
  | r, w, _ :: rest => noOverlap r w rest

/-- The number of frame I/O calls (reads or writes) performed under each
completed lock acquisition of a trace, in order.  The boolean argument says
whether a lock is currently held, the counter the number of I/O calls seen
since it was acquired. -/
def lockSpans : Bool → Nat → List Ev → List Nat
  | _, _, [] => []
  | _, _, Ev.lockRead :: rest => lockSpans true 0 rest
  | _, _, Ev.lockWrite :: rest => lockSpans true 0 rest
  | _, k, Ev.unlockRead :: rest => k :: lockSpans false 0 rest
  | _, k, Ev.unlockWrite :: rest => k :: lockSpans false 0 rest
  | held, k, Ev.readFrame _ _ :: rest =>
      lockSpans held (if held then k + 1 else k) rest
  | held, k, Ev.writeFrame _ _ _ _ :: rest =>
      lockSpans held (if held then k + 1 else k) rest
  | held, k, Ev.poll _ :: rest => lockSpans held k rest

/-- Holds (`true`) iff every poll event of the trace happens while no lock is held. -/
def pollsUnlocked : Bool → List Ev → Bool
  | _, [] => true
  | held, Ev.poll _ :: rest => !held && pollsUnlocked held rest
  | _, Ev.lockRead :: rest => pollsUnlocked true rest
  | _, Ev.lockWrite :: rest => pollsUnlocked true rest
  | _, Ev.unlockRead :: rest => pollsUnlocked false rest
  | _, Ev.unlockWrite :: rest => pollsUnlocked false rest
  | held, _ :: rest => pollsUnlocked held rest

/-- Holds (`true`) iff every frame write of the trace sits in an immediate
`lockWrite` / `writeFrame` / `unlockWrite` block. -/
def writesBracketed : List Ev → Bool
  | [] => true
  | Ev.lockWrite :: Ev.writeFrame _ _ _ _ :: Ev.unlockWrite :: rest =>
      writesBracketed rest
  | Ev.writeFrame _ _ _ _ :: _ => false
  | _ :: rest => writesBracketed rest

/-- Holds (`true`) iff the trace contains a read-lock acquisition. -/
def hasLockRead : List Ev → Bool
  | [] => false
  | Ev.lockRead :: _ => true
  | _ :: rest => hasLockRead rest

/-- The writes a `receiveFrame` call performs are exactly one PONG echo, with
the frame's own payload and count, for each consumed PING frame, in order. -/
theorem writesOf_receiveFrame_eq (steps : List RecvStep) :
    writesOf (receiveFrame steps).trace =
      ((consumedSteps steps).filter (fun s => isPing s.flags)).map
        (fun s => ⟨s.payload, s.n, FRAME_FLAG_FIN ||| FRAME_OP_PONG, s.echoResult⟩) := by
  induction steps with
  | nil => simp [receiveFrame, consumedSteps, writesOf]
  | cons s rest ih =>
    by_cases hping : isPing s.flags = true
    · by_cases hfail : s.echoResult = s.n
      · simp [receiveFrame, consumedSteps, writesOf, hping, hfail, ih]
      · simp [receiveFrame, consumedSteps, writesOf, hping, hfail]
    · by_cases hpong : isPong s.flags = true
      · simp [receiveFrame, consumedSteps, writesOf, hping, hpong, ih]
      · simp [receiveFrame, consumedSteps, writesOf, hping, hpong]

/-- The reads a `receiveFrame` call performs are exactly its consumed steps. -/
theorem readsOf_receiveFrame_eq (steps : List RecvStep) :
    readsOf (receiveFrame steps).trace =
      (consumedSteps steps).map (fun s => (s.n, s.flags)) := by
  induction steps with
  | nil => simp [receiveFrame, consumedSteps, readsOf]
  | cons s rest ih =>
    by_cases hping : isPing s.flags = true
    · by_cases hfail : s.echoResult = s.n
      · simp [receiveFrame, consumedSteps, readsOf, hping, hfail, ih]
      · simp [receiveFrame, consumedSteps, readsOf, hping, hfail]
    · by_cases hpong : isPong s.flags = true
      · simp [receiveFrame, consumedSteps, readsOf, hping, hpong, ih]
      · simp [receiveFrame, consumedSteps, readsOf, hping, hpong]

/-- Every write of a `receiveFrame` trace happens in an immediate
write-lock / write / unlock block. -/
theorem writesBracketed_receiveFrame (steps : List RecvStep) :
    writesBracketed (receiveFrame steps).trace = true := by
  induction steps with
  | nil => simp [receiveFrame, writesBracketed]
  | cons s rest ih =>
    by_cases hping : isPing s.flags = true
    · by_cases hfail : s.echoResult = s.n
      · simp [receiveFrame, writesBracketed, hping, hfail, ih]
      · simp [receiveFrame, writesBracketed, hping, hfail]
    · by_cases hpong : isPong s.flags = true
      · simp [receiveFrame, writesBracketed, hping, hpong, ih]
      · simp [receiveFrame, writesBracketed, hping, hpong]

/-- When a consumed PING frame's echo write does not transmit exactly `n`
bytes, `receiveFrame` returns -1. -/
theorem receiveFrame_ret_of_failed_echo (steps : List RecvStep)
    (h : ∃ s ∈ consumedSteps steps, isPing s.flags = true ∧ s.echoResult ≠ s.n) :
    (receiveFrame steps).ret = -1 := by
  induction steps with
  | nil => simp [receiveFrame]
  | cons s rest ih =>
    by_cases hping : isPing s.flags = true
    · by_cases hfail : s.echoResult = s.n
      · simp only [consumedSteps, hping, if_pos, hfail] at h
        rcases h with ⟨t, ht, hp, hne⟩
        simp [hfail, not_true] at ht ⊢
        rcases ht with rfl | ht
        · exact absurd hfail hne
        · simp [receiveFrame, hping, hfail]
          exact ih ⟨t, ht, hp, hne⟩
      · simp [receiveFrame, hping, hfail]
    · by_cases hpong : isPong s.flags = true
      · simp only [consumedSteps, hping, hpong, if_neg, if_pos, Bool.not_eq_true] at h
        rcases h with ⟨t, ht, hp, hne⟩
        rcases List.mem_cons.mp ht with rfl | ht
        · exact absurd hp (by simp [hping])
        · simp [receiveFrame, hping, hpong]
          exact ih ⟨t, ht, hp, hne⟩
      · simp only [consumedSteps, hping, hpong, Bool.not_eq_true, if_neg] at h
        rcases h with ⟨t, ht, hp, hne⟩
        simp at ht
        subst ht
        exact absurd hp (by simp [hping])

/-- A frame delivered to the caller is never a PING or PONG frame. -/
theorem receiveFrame_delivered_not_control (steps : List RecvStep) (d : RecvStep)
    (h : (receiveFrame steps).delivered = some d) :
    isPing d.flags = false ∧ isPong d.flags = false := by
  induction steps with
  | nil => simp [receiveFrame] at h
  | cons s rest ih =>
    by_cases hping : isPing s.flags = true
    · by_cases hfail : s.echoResult = s.n
      · simp [receiveFrame, hping, hfail] at h
        exact ih h
      · simp [receiveFrame, hping, hfail] at h
    · by_cases hpong : isPong s.flags = true
      · simp [receiveFrame, hping, hpong] at h
        exact ih h
      · simp [receiveFrame, hping, hpong] at h
        subst h
        exact ⟨by simpa using hping, by simpa using hpong⟩

/-- C1: control frames are never returned to the caller of `receiveFrame`.
For every received (consumed) frame whose opcode bits are PING, the call
issues exactly one PONG write carrying the same payload bytes and the same
count `n`, with the FIN flag set, inside a write-lock critical section, and
these echoes are the only writes the call performs (so a PONG frame causes
no write at all); if a PING echo does not transmit exactly `n` bytes the
call returns -1; and a frame delivered to the caller never has PING or PONG
opcode bits. -/
theorem receiveFrame_control_frame_policy (steps : List RecvStep) :
    writesOf (receiveFrame steps).trace =
      ((consumedSteps steps).filter (fun s => isPing s.flags)).map
        (fun s => ⟨s.payload, s.n, FRAME_FLAG_FIN ||| FRAME_OP_PONG, s.echoResult⟩) ∧
    writesBracketed (receiveFrame steps).trace = true ∧
    ((∃ s ∈ consumedSteps steps, isPing s.flags = true ∧ s.echoResult ≠ s.n) →
      (receiveFrame steps).ret = -1) ∧
    (∀ d, (receiveFrame steps).delivered = some d →
      isPing d.flags = false ∧ isPong d.flags = false) :=
  ⟨writesOf_receiveFrame_eq steps, writesBracketed_receiveFrame steps,
   fun h => receiveFrame_ret_of_failed_echo steps h,
   fun d h => receiveFrame_delivered_not_control steps d h⟩

/-- C1 witness: a PING frame of 3 bytes whose echo write reports 0 bytes
produces exactly one FIN|PONG write with the same payload, and the call
returns -1. -/
theorem receiveFrame_control_frame_policy_witness :
    writesOf (receiveFrame [⟨3, 0x89, [1, 2, 3], 0⟩]).trace =
      [⟨[1, 2, 3], 3, FRAME_FLAG_FIN ||| FRAME_OP_PONG, 0⟩] ∧
    (receiveFrame [⟨3, 0x89, [1, 2, 3], 0⟩]).ret = -1 :=
  ⟨(receiveFrame_control_frame_policy [⟨3, 0x89, [1, 2, 3], 0⟩]).1.trans (by decide),
   (receiveFrame_control_frame_policy [⟨3, 0x89, [1, 2, 3], 0⟩]).2.2.1 (by decide)⟩

/-- C2: a `sendFrame` call writes exactly one preamble frame, whose bytes
are exactly the text `"nextmessage: size="` followed by the decimal value of
`length`, before the payload frame when `length` is at or above the
large-message threshold, and no preamble (only the payload frame) when
`length` is below the threshold. -/
theorem sendFrame_preamble_iff_large (T : Int) (buffer : List Nat) (length : Int)
    (flags : Nat) (env : SendEnv) :
    writesOf (sendFrame T buffer length flags env).trace =
      if length ≥ T then
        ⟨nextmessageBytes length, nextmessageSize length, FRAME_TEXT, env.preambleResult⟩ ::
          (if env.preambleResult = nextmessageSize length then
            [⟨buffer, length, flags, env.payloadResult⟩] else [])
      else [⟨buffer, length, flags, env.payloadResult⟩] := by
  by_cases hT : length ≥ T
  · by_cases hp : env.preambleResult = nextmessageSize length <;>
      simp [sendFrame, writesOf, hT, hp]
  · simp [sendFrame, writesOf, hT]

/-- C3: when `length` is at or above the threshold and the transport reports
a count different from the preamble's size for the preamble write,
`sendFrame` returns -1 and the preamble write is the only write performed
(the payload frame is never attempted). -/
theorem sendFrame_preamble_abort (T : Int) (buffer : List Nat) (length : Int)
    (flags : Nat) (env : SendEnv) (hT : length ≥ T)
    (hfail : env.preambleResult ≠ nextmessageSize length) :
    (sendFrame T buffer length flags env).ret = -1 ∧
    writesOf (sendFrame T buffer length flags env).trace =
      [⟨nextmessageBytes length, nextmessageSize length, FRAME_TEXT, env.preambleResult⟩] := by
  simp [sendFrame, writesOf, hT, hfail]

/-- C3 witness: threshold 1000, length 1500, preamble write reports 0 bytes:
the call returns -1 after the lone preamble write. -/
theorem sendFrame_preamble_abort_witness :
    (sendFrame 1000 [] 1500 FRAME_TEXT ⟨0, 7⟩).ret = -1 ∧
    writesOf (sendFrame 1000 [] 1500 FRAME_TEXT ⟨0, 7⟩).trace =
      [⟨nextmessageBytes 1500, nextmessageSize 1500, FRAME_TEXT, 0⟩] :=
  sendFrame_preamble_abort 1000 [] 1500 FRAME_TEXT ⟨0, 7⟩ (by decide) (by decide)

/-- C4: every `sendFrame` call that reaches the payload write returns
exactly the count the transport reported for the payload frame (never
including the preamble's bytes), and issues that payload write exactly once
(no retry), even when the reported count is smaller than `length`. -/
theorem sendFrame_reports_payload_count (T : Int) (buffer : List Nat) (length : Int)
    (flags : Nat) (env : SendEnv)
    (h : length ≥ T → env.preambleResult = nextmessageSize length) :
    (sendFrame T buffer length flags env).ret = env.payloadResult ∧
    writesOf (sendFrame T buffer length flags env).trace =
      (if length ≥ T then
        [⟨nextmessageBytes length, nextmessageSize length, FRAME_TEXT, env.preambleResult⟩]
       else []) ++ [⟨buffer, length, flags, env.payloadResult⟩] := by
  by_cases hT : length ≥ T
  · simp [sendFrame, writesOf, hT, h hT]
  · simp [sendFrame, writesOf, hT]

/-- C4 witness: a 5-byte send below the threshold whose payload write
reports only 3 bytes returns 3, with a single payload write. -/
theorem sendFrame_reports_payload_count_witness :
    (sendFrame 1000 [1, 2, 3, 4, 5] 5 FRAME_TEXT ⟨0, 3⟩).ret = 3 ∧
    writesOf (sendFrame 1000 [1, 2, 3, 4, 5] 5 FRAME_TEXT ⟨0, 3⟩).trace =
      [⟨[1, 2, 3, 4, 5], 5, FRAME_TEXT, 3⟩] := by
  have h := sendFrame_reports_payload_count 1000 [1, 2, 3, 4, 5] 5 FRAME_TEXT ⟨0, 3⟩
    (by decide)
  exact ⟨h.1, h.2.trans (by decide)⟩

/-- C5 counterexample: a read that returns 0 bytes with PING opcode bits
(`flags = 0x89`) is not propagated to the caller and PING handling is
attempted: the call issues a PONG echo write and, the echo matching `n = 0`,
polls again and ends with -1 rather than returning 0 immediately. -/
theorem receiveFrame_zero_read_cex :
    (receiveFrame [⟨0, 0x89, [], 0⟩]).ret = -1 ∧
    (receiveFrame [⟨0, 0x89, [], 0⟩]).ret ≠ 0 ∧
    writesOf (receiveFrame [⟨0, 0x89, [], 0⟩]).trace =
      [⟨[], 0, FRAME_FLAG_FIN ||| FRAME_OP_PONG, 0⟩] := by decide

/-- C5 amended: when the underlying frame read returns zero or negative
bytes and the returned flags' opcode bits are neither PING nor PONG, that
value is propagated to the caller as-is, the loop exits after this first
read, and no write is issued; the code inspects the opcode bits regardless
of the byte count, so a zero/negative read carrying PING or PONG opcode
bits is still handled as a control frame. -/
theorem receiveFrame_nonpositive_noncontrol_read (s : RecvStep) (rest : List RecvStep)
    (hn : s.n ≤ 0) (hping : isPing s.flags = false) (hpong : isPong s.flags = false) :
    (receiveFrame (s :: rest)).ret = s.n ∧
    writesOf (receiveFrame (s :: rest)).trace = [] ∧
    consumedSteps (s :: rest) = [s] := by
  simp [receiveFrame, consumedSteps, writesOf, readsOf, hping, hpong]

/-- C5 amended witness: a read reporting 0 bytes with flags 0 returns 0
immediately, issuing no write, even with further readable frames pending. -/
theorem receiveFrame_nonpositive_noncontrol_read_witness :
    (receiveFrame [⟨0, 0, [], 0⟩, ⟨5, 0x81, [1], 0⟩]).ret = 0 ∧
    writesOf (receiveFrame [⟨0, 0, [], 0⟩, ⟨5, 0x81, [1], 0⟩]).trace = [] ∧
    consumedSteps [⟨0, 0, [], 0⟩, ⟨5, 0x81, [1], 0⟩] = [⟨0, 0, [], 0⟩] :=
  receiveFrame_nonpositive_noncontrol_read ⟨0, 0, [], 0⟩ [⟨5, 0x81, [1], 0⟩]
    (by decide) (by decide) (by decide)

/-- C6: when the poll wait elapses with the transport never reporting
readable (the empty iteration list), `receiveFrame` returns -1, delivers
nothing to the caller, performs no frame read and no frame write, and its
whole interaction is the single failed poll (no exception is modelled:
the function is total and returns). -/
theorem receiveFrame_poll_timeout :
    (receiveFrame []).ret = -1 ∧
    (receiveFrame []).delivered = none ∧
    readsOf (receiveFrame []).trace = [] ∧
    writesOf (receiveFrame []).trace = [] ∧
    (receiveFrame []).trace = [Ev.poll false] := by decide

/-- C7 counterexample: with threshold 1000 and a transport accepting every
write in full, `sendFrame` on a 1500-byte payload writes the preamble
`"nextmessage: size=1500"`, whose length is 22 bytes — not 23 as the claim
states — followed by the 1500-byte payload frame. -/
theorem send1500_scenario_cex :
    (writesOf (sendFrame 1000 (List.replicate 1500 0) 1500 FRAME_TEXT ⟨22, 1500⟩).trace).map
      Write.len = [22, 1500] ∧
    nextmessageSize 1500 = 22 ∧ nextmessageSize 1500 ≠ 23 := by decide

/-- C7 amended: with threshold 1000, `send(buf, 1500, TEXT)` on a transport
that accepts all writes fully causes exactly two writes — first a frame
containing the text `"nextmessage: size=1500"`, whose length is 22 bytes,
then the 1500-byte payload frame — and returns 1500. -/
theorem send1500_scenario (buffer : List Nat) (env : SendEnv)
    (hbuf : buffer.length = 1500)
    (hpre : env.preambleResult = 22) (hpay : env.payloadResult = 1500) :
    (sendFrame 1000 buffer 1500 FRAME_TEXT env).ret = 1500 ∧
    writesOf (sendFrame 1000 buffer 1500 FRAME_TEXT env).trace =
      [⟨nextmessageBytes 1500, 22, FRAME_TEXT, 22⟩, ⟨buffer, 1500, FRAME_TEXT, 1500⟩] ∧
    nextmessageBytes 1500 = "nextmessage: size=1500".data.map Char.toNat ∧
    nextmessageSize 1500 = 22 := by
  obtain ⟨p, q⟩ := env
  simp only at hpre hpay
  subst hpre hpay
  exact ⟨rfl, rfl, rfl, rfl⟩

/-- C7 amended witness: the scenario instantiated with a concrete 1500-byte
buffer. -/
theorem send1500_scenario_witness :
    (sendFrame 1000 (List.replicate 1500 0) 1500 FRAME_TEXT ⟨22, 1500⟩).ret = 1500 ∧
    writesOf (sendFrame 1000 (List.replicate 1500 0) 1500 FRAME_TEXT ⟨22, 1500⟩).trace =
      [⟨nextmessageBytes 1500, 22, FRAME_TEXT, 22⟩,
       ⟨List.replicate 1500 0, 1500, FRAME_TEXT, 1500⟩] :=
  ⟨(send1500_scenario (List.replicate 1500 0) ⟨22, 1500⟩ (List.length_replicate 1500 0) rfl rfl).1,
   (send1500_scenario (List.replicate 1500 0) ⟨22, 1500⟩ (List.length_replicate 1500 0) rfl rfl).2.1⟩

/-- Every `receiveFrame` trace respects lock discipline: neither lock is
acquired while one is held, and every release matches an acquisition. -/
theorem noOverlap_receiveFrame (steps : List RecvStep) :
    noOverlap false false (receiveFrame steps).trace = true := by
  induction steps with
  | nil => simp [receiveFrame, noOverlap]
  | cons s rest ih =>
    by_cases hping : isPing s.flags = true
    · by_cases hfail : s.echoResult = s.n
      · simp [receiveFrame, noOverlap, hping, hfail, ih]
      · simp [receiveFrame, noOverlap, hping, hfail]
    · by_cases hpong : isPong s.flags = true
      · simp [receiveFrame, noOverlap, hping, hpong, ih]
      · simp [receiveFrame, noOverlap, hping, hpong]

/-- Every `sendFrame` trace respects lock discipline. -/
theorem noOverlap_sendFrame (T : Int) (buffer : List Nat) (length : Int)
    (flags : Nat) (env : SendEnv) :
    noOverlap false false (sendFrame T buffer length flags env).trace = true := by
  by_cases hT : length ≥ T
  · by_cases hp : env.preambleResult = nextmessageSize length <;>
      simp [sendFrame, noOverlap, hT, hp]
  · simp [sendFrame, noOverlap, hT]

/-- A `sendFrame` call never acquires the read lock. -/
theorem hasLockRead_sendFrame (T : Int) (buffer : List Nat) (length : Int)
    (flags : Nat) (env : SendEnv) :
    hasLockRead (sendFrame T buffer length flags env).trace = false := by
  by_cases hT : length ≥ T
  · by_cases hp : env.preambleResult = nextmessageSize length <;>
      simp [sendFrame, hasLockRead, hT, hp]
  · simp [sendFrame, hasLockRead, hT]

/-- C8: the two locks are never held simultaneously: in every execution of
`receiveFrame` no lock is acquired while the other (or the same) lock is
held — in particular the read lock is released before the write lock is
acquired for a PING echo, and the write lock is never held when the read
lock is taken — and `sendFrame` never acquires the read lock at all. -/
theorem locks_never_overlap :
    (∀ steps, noOverlap false false (receiveFrame steps).trace = true) ∧
    (∀ (T : Int) (buffer : List Nat) (length : Int) (flags : Nat) (env : SendEnv),
      noOverlap false false (sendFrame T buffer length flags env).trace = true ∧
      hasLockRead (sendFrame T buffer length flags env).trace = false) :=
  ⟨noOverlap_receiveFrame,
   fun T buffer length flags env =>
     ⟨noOverlap_sendFrame T buffer length flags env,
      hasLockRead_sendFrame T buffer length flags env⟩⟩

/-- Every lock acquisition in a `receiveFrame` trace spans exactly one
underlying frame I/O call. -/
theorem lockSpans_receiveFrame (steps : List RecvStep) :
    ((lockSpans false 0 (receiveFrame steps).trace).all fun k => k == 1) = true := by
  induction steps with
  | nil => simp [receiveFrame, lockSpans]
  | cons s rest ih =>
    by_cases hping : isPing s.flags = true
    · by_cases hfail : s.echoResult = s.n
      · simp [receiveFrame, lockSpans, hping, hfail, ih]
      · simp [receiveFrame, lockSpans, hping, hfail]
    · by_cases hpong : isPong s.flags = true
      · simp [receiveFrame, lockSpans, hping, hpong, ih]
      · simp [receiveFrame, lockSpans, hping, hpong]

/-- Every poll of a `receiveFrame` trace happens outside any lock. -/
theorem pollsUnlocked_receiveFrame (steps : List RecvStep) :
    pollsUnlocked false (receiveFrame steps).trace = true := by
  induction steps with
  | nil => simp [receiveFrame, pollsUnlocked]
  | cons s rest ih =>
    by_cases hping : isPing s.flags = true
    · by_cases hfail : s.echoResult = s.n
      · simp [receiveFrame, pollsUnlocked, hping, hfail, ih]
      · simp [receiveFrame, pollsUnlocked, hping, hfail]
    · by_cases hpong : isPong s.flags = true
      · simp [receiveFrame, pollsUnlocked, hping, hpong, ih]
      · simp [receiveFrame, pollsUnlocked, hping, hpong]

/-- Every lock acquisition in a `sendFrame` trace spans at most two
underlying frame I/O calls. -/
theorem lockSpans_sendFrame (T : Int) (buffer : List Nat) (length : Int)
    (flags : Nat) (env : SendEnv) :
    ((lockSpans false 0 (sendFrame T buffer length flags env).trace).all
      fun k => decide (k ≤ 2)) = true := by
  by_cases hT : length ≥ T
  · by_cases hp : env.preambleResult = nextmessageSize length <;>
      simp [sendFrame, lockSpans, hT, hp]
  · simp [sendFrame, lockSpans, hT]

/-- A `sendFrame` trace contains no poll, so trivially no poll under a lock. -/
theorem pollsUnlocked_sendFrame (T : Int) (buffer : List Nat) (length : Int)
    (flags : Nat) (env : SendEnv) :
    pollsUnlocked false (sendFrame T buffer length flags env).trace = true := by
  by_cases hT : length ≥ T
  · by_cases hp : env.preambleResult = nextmessageSize length <;>
      simp [sendFrame, pollsUnlocked, hT, hp]
  · simp [sendFrame, pollsUnlocked, hT]

/-- C9 counterexample: a large `sendFrame` (threshold 1000, length 1500,
preamble accepted) performs TWO frame writes — the preamble and the payload
— under its single write-lock acquisition, so it is not the case that every
lock acquisition spans exactly one underlying frame I/O call. -/
theorem lock_single_io_cex :
    lockSpans false 0 (sendFrame 1000 [] 1500 FRAME_TEXT ⟨22, 1500⟩).trace = [2] ∧
    ((lockSpans false 0 (sendFrame 1000 [] 1500 FRAME_TEXT ⟨22, 1500⟩).trace).all
      fun k => k == 1) = false := by decide

/-- C9 amended: in every execution of `receiveFrame` each lock acquisition
spans exactly one underlying frame I/O call and poll/wait time always occurs
outside any lock; in `sendFrame` the single write-lock acquisition spans at
most two frame I/O calls (two exactly when a preamble is sent and succeeds,
since the lock is held across both the preamble and the payload write), and
`sendFrame` performs no poll at all. -/
theorem lock_critical_sections :
    (∀ steps,
      ((lockSpans false 0 (receiveFrame steps).trace).all fun k => k == 1) = true ∧
      pollsUnlocked false (receiveFrame steps).trace = true) ∧
    (∀ (T : Int) (buffer : List Nat) (length : Int) (flags : Nat) (env : SendEnv),
      ((lockSpans false 0 (sendFrame T buffer length flags env).trace).all
        fun k => decide (k ≤ 2)) = true ∧
      pollsUnlocked false (sendFrame T buffer length flags env).trace = true) :=
  ⟨fun steps => ⟨lockSpans_receiveFrame steps, pollsUnlocked_receiveFrame steps⟩,
   fun T buffer length flags env =>
     ⟨lockSpans_sendFrame T buffer length flags env,
      pollsUnlocked_sendFrame T buffer length flags env⟩⟩

/-- C10: on a transport that keeps reporting readable and keeps yielding
PONG frames or PING frames whose echoes succeed, `receiveFrame` never
returns to the caller: every finite prefix of such a transport behavior is
consumed in full (one read per frame), nothing is delivered, and the call
can only end through the poll-timeout exit (-1) once the prefix is
exhausted — on the unbounded behavior the loop therefore never returns. -/
theorem receiveFrame_consumes_all_control (steps : List RecvStep)
    (h : ∀ s ∈ steps, isPong s.flags = true ∨ (isPing s.flags = true ∧ s.echoResult = s.n)) :
    consumedSteps steps = steps ∧
    readsOf (receiveFrame steps).trace = steps.map (fun s => (s.n, s.flags)) ∧
    (receiveFrame steps).delivered = none ∧
    (receiveFrame steps).ret = -1 := by
  induction steps with
  | nil => exact ⟨rfl, rfl, rfl, rfl⟩
  | cons s rest ih =>
    have hs := h s (List.mem_cons_self s rest)
    have hrest := ih (fun t ht => h t (List.mem_cons_of_mem s ht))
    rcases hs with hpong | ⟨hping, hecho⟩
    · have hping : isPing s.flags = false := by
        have h1 : s.flags &&& FRAME_OP_BITMASK = FRAME_OP_PONG := by
          simpa [isPong] using hpong
        simp [isPing, h1, FRAME_OP_PING, FRAME_OP_PONG]
      simp [receiveFrame, consumedSteps, readsOf, hping, hpong, hrest.1,
        hrest.2.1, hrest.2.2.1, hrest.2.2.2]
    · simp [receiveFrame, consumedSteps, readsOf, hping, hecho, hrest.1,
        hrest.2.1, hrest.2.2.1, hrest.2.2.2]

/-- C10 witness: a PONG frame followed by a PING frame with a successful
echo are both consumed, nothing is delivered, and the call ends -1 only
because the two-frame prefix ran out. -/
theorem receiveFrame_consumes_all_control_witness :
    consumedSteps [⟨0, 0x8a, [], 0⟩, ⟨2, 0x89, [7, 7], 2⟩] =
      [⟨0, 0x8a, [], 0⟩, ⟨2, 0x89, [7, 7], 2⟩] ∧
    (receiveFrame [⟨0, 0x8a, [], 0⟩, ⟨2, 0x89, [7, 7], 2⟩]).delivered = none ∧
    (receiveFrame [⟨0, 0x8a, [], 0⟩, ⟨2, 0x89, [7, 7], 2⟩]).ret = -1 := by
  have h := receiveFrame_consumes_all_control [⟨0, 0x8a, [], 0⟩, ⟨2, 0x89, [7, 7], 2⟩]
    (by decide)
  exact ⟨h.1, h.2.2.1, h.2.2.2⟩

end LOOLWebSocket
